import Mathlib

/-!
Verification development for the authentication core of the vue-shadcn
repository: token codec, persistence adapter, session clock, auth state
store, navigation guard chain and logout watcher.

The definitions below are a shallow embedding of the TypeScript source:

- `src/modules/auth/guards/auth.guard.ts` (guards, TokenUtils, UserUtils,
  SessionUtils),
- `src/modules/auth/stores/auth.store.ts` (the modular store),
- `src/stores/auth.ts` (the legacy store),
- `src/modules/auth/setup.ts` (guard registration and logout watcher),
- `src/modules/auth/constants` (routes and storage keys).

Modelling conventions:

- JS strings inside the token codec are represented as lists of UTF-16 code
  units (`List Nat`); tokens coming from the outside are Lean `String`s whose
  scalar values are mapped to code units (tokens containing astral characters
  are rejected by `atob` in both representations, so the two agree on every
  reachable input).
- JS numbers are represented exactly (`Rat` plus NaN and the two infinities);
  float rounding is not modelled, and the `ToNumber` coercion of arrays
  (`join` of stringified elements) is approximated by NaN, which no decidable
  property below depends on.
- Browser storage is modelled per key: the keys used by the source
  (`auth_token`, `auth_user`, `auth_remember_me`, `lastActivity`) are disjoint
  string constants, and the JSON round-trip of the stored user record is the
  identity, so each tier is a record of typed optional cells.
- Storage failures (quota, serialization) are modelled by a `persistOk`
  boolean: the source catches every storage exception at the call site and
  continues, so a failing call is exactly "the storage is left unchanged".
- The store is modelled after `ensureStateInitialized` has run: the lazy
  initialization flag only guards the initial load from storage.
-/

namespace VueAuth

/-! ## JS helpers -/

/-- JS truthiness of a nullable string (`null` and the empty string are
falsy). -/
def strTruthy : Option String → Bool
  | none => false
  | some s => s ≠ ""

/-- `a || b` on nullable strings: the right operand is returned when the left
is `null` or empty. -/
def jsOrStr (a b : Option String) : Option String :=
  match a with
  | some s => if s = "" then b else some s
  | none => b

/-! ## Token codec: JSON values

`TokenUtils.parseTokenPayload` returns whatever `JSON.parse` produced, with no
runtime shape check, so the payload is an arbitrary JSON value. Object keys
and string contents are UTF-16 code unit lists. -/

inductive Jv where
  | jnull
  | jbool (b : Bool)
  | jnum (q : Rat)
  | jstr (units : List Nat)
  | jarr (elems : List Jv)
  | jobj (members : List (List Nat × Jv))
deriving Repr

/-! ## Token codec: forgiving base64 (`atob`) -/

/-- Value of a base64 alphabet character (by code point). -/
def b64Val (n : Nat) : Option Nat :=
  if 65 ≤ n ∧ n ≤ 90 then some (n - 65)
  else if 97 ≤ n ∧ n ≤ 122 then some (n - 97 + 26)
  else if 48 ≤ n ∧ n ≤ 57 then some (n - 48 + 52)
  else if n = 43 then some 62
  else if n = 47 then some 63
  else none

/-- ASCII whitespace removed by forgiving-base64 decoding. -/
def isB64Ws (n : Nat) : Bool := n = 9 || n = 10 || n = 12 || n = 13 || n = 32

/-- Strip one or two trailing `=` padding characters. -/
def b64StripPad (l : List Nat) : List Nat :=
  match l.reverse with
  | 61 :: 61 :: r => r.reverse
  | 61 :: r => r.reverse
  | _ => l

/-- Reassemble 6-bit groups into bytes (excess bits of a trailing group of two
or three characters are discarded, as `atob` does). -/
def b64Groups : List Nat → Option (List Nat)
  | [] => some []
  | [_] => none
  | [a, b] => some [a * 4 + b / 16]
  | [a, b, c] => some [a * 4 + b / 16, b % 16 * 16 + c / 4]
  | a :: b :: c :: d :: rest => do
      let tail ← b64Groups rest
      pure ((a * 4 + b / 16) :: (b % 16 * 16 + c / 4) :: (c % 4 * 64 + d) :: tail)

/-- `atob`: forgiving-base64 decoding of a code unit list into bytes; `none`
models the thrown `InvalidCharacterError`. -/
def atob (s : List Nat) : Option (List Nat) := do
  let d0 := s.filter (fun n => !isB64Ws n)
  let d1 := if d0.length % 4 = 0 then b64StripPad d0 else d0
  if d1.length % 4 = 1 then none
  else do
    let sixes ← d1.mapM b64Val
    b64Groups sixes

/-! ## Token codec: percent-decoding

The source percent-encodes every decoded byte and feeds the result to
`decodeURIComponent`; the composition is exactly strict UTF-8 decoding of
the byte list to UTF-16 code units, throwing (`none`) on malformed input. -/

/-- UTF-16 code units of a code point (surrogate pair above `0xFFFF`). -/
def cpToUnits (cp : Nat) : List Nat :=
  if cp < 65536 then [cp]
  else [55296 + (cp - 65536) / 1024, 56320 + (cp - 65536) % 1024]

/-- A UTF-8 continuation byte. -/
def utf8Cont (b : Nat) : Bool := 128 ≤ b && b ≤ 191

/-- Strict UTF-8 decoding (rejecting overlong forms, surrogates and values
above `0x10FFFF`) to UTF-16 code units. -/
def utf8Decode : List Nat → Option (List Nat)
  | [] => some []
  | b :: rest =>
    if b ≤ 127 then do
      let t ← utf8Decode rest
      pure (b :: t)
    else if 194 ≤ b ∧ b ≤ 223 then
      match rest with
      | c :: rest2 =>
        if utf8Cont c then do
          let t ← utf8Decode rest2
          pure (((b - 192) * 64 + (c - 128)) :: t)
        else none
      | [] => none
    else if 224 ≤ b ∧ b ≤ 239 then
      match rest with
      | c :: d :: rest2 =>
        let lo := if b = 224 then 160 else 128
        let hi := if b = 237 then 159 else 191
        if lo ≤ c ∧ c ≤ hi ∧ utf8Cont d then do
          let t ← utf8Decode rest2
          pure (((b - 224) * 4096 + (c - 128) * 64 + (d - 128)) :: t)
        else none
      | _ => none
    else if 240 ≤ b ∧ b ≤ 244 then
      match rest with
      | c :: d :: e :: rest2 =>
        let lo := if b = 240 then 144 else 128
        let hi := if b = 244 then 143 else 191
        if lo ≤ c ∧ c ≤ hi ∧ utf8Cont d ∧ utf8Cont e then do
          let t ← utf8Decode rest2
          pure (cpToUnits ((b - 240) * 262144 + (c - 128) * 4096 + (d - 128) * 64 + (e - 128)) ++ t)
        else none
      | _ => none
    else none

/-! ## Token codec: `JSON.parse` -/

/-- JSON whitespace (space, tab, line feed, carriage return). -/
def jsonWs (u : Nat) : Bool := u = 32 || u = 9 || u = 10 || u = 13

def skipWs (l : List Nat) : List Nat := l.dropWhile jsonWs

def isDig (u : Nat) : Bool := decide (48 ≤ u ∧ u ≤ 57)

def digitsToNat (ds : List Nat) : Nat := ds.foldl (fun a d => a * 10 + (d - 48)) 0

def hexVal (u : Nat) : Option Nat :=
  if 48 ≤ u ∧ u ≤ 57 then some (u - 48)
  else if 65 ≤ u ∧ u ≤ 70 then some (u - 65 + 10)
  else if 97 ≤ u ∧ u ≤ 102 then some (u - 97 + 10)
  else none

/-- The exact value `m * 10 ^ e` as a rational, built with `mkRat` and casts
only (the rational field operations are irreducible and would not
evaluate). -/
def decScale (m : Int) (e : Int) : Rat :=
  if 0 ≤ e then ((m * 10 ^ e.toNat : Int) : Rat) else mkRat m (10 ^ (-e).toNat)

/-- JSON number grammar: optional minus, integer part without leading zeros,
optional fraction, optional exponent. Returns the exact value and the rest of
the input. -/
def parseJsonNumber (l : List Nat) : Option (Rat × List Nat) := do
  let (neg, l1) := match l with
    | 45 :: r => (true, r)
    | _ => (false, l)
  let (intDs, l2) ← match l1 with
    | 48 :: r => some ([48], r)
    | u :: _ =>
      if 49 ≤ u ∧ u ≤ 57 then
        let ds := l1.takeWhile isDig
        some (ds, l1.drop ds.length)
      else none
    | [] => none
  let (fracDs, l3) := match l2 with
    | 46 :: r =>
      let ds := r.takeWhile isDig
      (ds, r.drop ds.length)
    | _ => ([], l2)
  if l2 ≠ l3 ∧ fracDs = [] then none
  else do
    let (expVal, l4) ← match l3 with
      | 101 :: r | 69 :: r =>
        let (esign, r1) := match r with
          | 43 :: r2 => ((1 : Int), r2)
          | 45 :: r2 => ((-1 : Int), r2)
          | _ => ((1 : Int), r)
        let ds := r1.takeWhile isDig
        if ds = [] then none
        else some (esign * (digitsToNat ds : Int), r1.drop ds.length)
      | _ => some ((0 : Int), l3)
    let mag : Int := (digitsToNat (intDs ++ fracDs) : Int)
    let m : Int := if neg then -mag else mag
    let q : Rat := decScale m (expVal - (fracDs.length : Int))
    pure (q, l4)

/-- Body of a JSON string after the opening quote: returns the decoded code
units and the input after the closing quote. `\u` escapes are kept as raw
code units (as `JSON.parse` does, lone surrogates included). -/
def parseJsonString : List Nat → Option (List Nat × List Nat)
  | [] => none
  | u :: rest =>
    if u = 34 then some ([], rest)
    else if u = 92 then
      match rest with
      | [] => none
      | e :: rest2 =>
        if e = 34 ∨ e = 92 ∨ e = 47 then
          (fun p => (e :: p.1, p.2)) <$> parseJsonString rest2
        else if e = 98 then (fun p => (8 :: p.1, p.2)) <$> parseJsonString rest2
        else if e = 102 then (fun p => (12 :: p.1, p.2)) <$> parseJsonString rest2
        else if e = 110 then (fun p => (10 :: p.1, p.2)) <$> parseJsonString rest2
        else if e = 114 then (fun p => (13 :: p.1, p.2)) <$> parseJsonString rest2
        else if e = 116 then (fun p => (9 :: p.1, p.2)) <$> parseJsonString rest2
        else if e = 117 then
          match rest2 with
          | h1 :: h2 :: h3 :: h4 :: rest3 => do
            let v1 ← hexVal h1
            let v2 ← hexVal h2
            let v3 ← hexVal h3
            let v4 ← hexVal h4
            let p ← parseJsonString rest3
            pure ((v1 * 4096 + v2 * 256 + v3 * 16 + v4) :: p.1, p.2)
          | _ => none
        else none
    else if u < 32 then none
    else (fun p => (u :: p.1, p.2)) <$> parseJsonString rest

/-- Comma-separated array elements up to the closing bracket; the value parser
is passed in, so the recursion is structural on the fuel. -/
def parseJsonElems (pv : List Nat → Option (Jv × List Nat)) :
    Nat → List Nat → Option (List Jv × List Nat)
  | 0, _ => none
  | f + 1, l => do
    let (v, r) ← pv l
    match skipWs r with
    | 44 :: rest => do
        let (vs, r2) ← parseJsonElems pv f rest
        pure (v :: vs, r2)
    | 93 :: rest => pure ([v], rest)
    | _ => none

/-- Comma-separated object members up to the closing brace. -/
def parseJsonMembers (pv : List Nat → Option (Jv × List Nat)) :
    Nat → List Nat → Option (List (List Nat × Jv) × List Nat)
  | 0, _ => none
  | f + 1, l =>
    match skipWs l with
    | 34 :: rest => do
      let (k, r) ← parseJsonString rest
      match skipWs r with
      | 58 :: r2 => do
        let (v, r3) ← pv (skipWs r2)
        match skipWs r3 with
        | 44 :: rest2 => do
            let (ms, r4) ← parseJsonMembers pv f rest2
            pure ((k, v) :: ms, r4)
        | 125 :: rest2 => pure ([(k, v)], rest2)
        | _ => none
      | _ => none
    | _ => none

/-- A single JSON value (leading whitespace allowed), with fuel. -/
def parseJsonVal : Nat → List Nat → Option (Jv × List Nat)
  | 0, _ => none
  | f + 1, l =>
    let l1 := skipWs l
    match l1 with
    | [] => none
    | u :: rest =>
      if u = 110 then
        match l1 with
        | 110 :: 117 :: 108 :: 108 :: r => some (.jnull, r)
        | _ => none
      else if u = 116 then
        match l1 with
        | 116 :: 114 :: 117 :: 101 :: r => some (.jbool true, r)
        | _ => none
      else if u = 102 then
        match l1 with
        | 102 :: 97 :: 108 :: 115 :: 101 :: r => some (.jbool false, r)
        | _ => none
      else if u = 34 then
        (fun p => (Jv.jstr p.1, p.2)) <$> parseJsonString rest
      else if u = 91 then
        match skipWs rest with
        | 93 :: r2 => some (.jarr [], r2)
        | r1 => (fun p => (Jv.jarr p.1, p.2)) <$> parseJsonElems (parseJsonVal f) (r1.length + 1) r1
      else if u = 123 then
        match skipWs rest with
        | 125 :: r2 => some (.jobj [], r2)
        | r1 => (fun p => (Jv.jobj p.1, p.2)) <$> parseJsonMembers (parseJsonVal f) (r1.length + 1) r1
      else if u = 45 ∨ isDig u then
        (fun p => (Jv.jnum p.1, p.2)) <$> parseJsonNumber l1
      else none

/-- `JSON.parse` over code units: one value, then only trailing whitespace. -/
def jsonParse (units : List Nat) : Option Jv := do
  let (v, rest) ← parseJsonVal (units.length + 1) units
  if skipWs rest = [] then some v else none

/-! ## Token codec: JS value coercions used by `isTokenExpired` -/

/-- Last-binding-wins lookup of an object member, matching the JS object
built by `JSON.parse` (later duplicate keys overwrite earlier ones). -/
def lookupLast (kvs : List (List Nat × Jv)) (key : List Nat) : Option Jv :=
  kvs.foldl (fun acc kv => if kv.1 = key then some kv.2 else acc) none

/-- JS property access `v.key` on a parsed JSON value: a member lookup on
objects, `undefined` (`none`) on every other value. -/
def jvField (v : Jv) (key : List Nat) : Option Jv :=
  match v with
  | .jobj kvs => lookupLast kvs key
  | _ => none

/-- JS falsiness of a JSON value (`null`, `false`, `0` and the empty string
are falsy; every object and array is truthy). -/
def jsFalsy : Jv → Bool
  | .jnull => true
  | .jbool b => !b
  | .jnum q => decide (q = 0)
  | .jstr s => s.isEmpty
  | .jarr _ => false
  | .jobj _ => false

/-- A JS number: NaN, an infinity, or an exact finite value. -/
inductive JsNum where
  | nan
  | posInf
  | negInf
  | fin (q : Rat)
deriving Repr

/-- JS `StrWhiteSpace` characters recognised for trimming in `ToNumber`
(ASCII whitespace, NBSP, the line separators and the BOM; the other Unicode
`Zs` characters are not modelled). -/
def isJsWs (u : Nat) : Bool :=
  u = 9 || u = 10 || u = 11 || u = 12 || u = 13 || u = 32 || u = 160 ||
    u = 8232 || u = 8233 || u = 65279

/-- Digit value below a radix (hex letters included). -/
def digitValIn (radix : Nat) (u : Nat) : Option Nat :=
  match hexVal u with
  | some v => if v < radix then some v else none
  | none => none

/-- Digits of a non-decimal integer literal. -/
def parseRadixNat (radix : Nat) (ds : List Nat) : Option Nat :=
  if ds = [] then none
  else ds.foldlM (fun a u => (fun v => a * radix + v) <$> digitValIn radix u) 0

/-- `StrDecimalLiteral`: optional sign, then `Infinity` or a decimal literal
(trailing or leading dot allowed, optional exponent), consuming the whole
input. -/
def strDecimal (t : List Nat) : JsNum :=
  let (sgn, t1) := match t with
    | 43 :: r => ((1 : Int), r)
    | 45 :: r => ((-1 : Int), r)
    | _ => ((1 : Int), t)
  if t1 = [73, 110, 102, 105, 110, 105, 116, 121] then
    (if sgn = 1 then .posInf else .negInf)
  else
    let intDs := t1.takeWhile isDig
    let r1 := t1.drop intDs.length
    let dotted := match r1 with
      | 46 :: _ => true
      | _ => false
    let fracDs := if dotted then r1.tail.takeWhile isDig else []
    let r2 := if dotted then r1.tail.drop fracDs.length else r1
    if intDs = [] ∧ fracDs = [] then .nan
    else
      match r2 with
      | 101 :: rr | 69 :: rr =>
        let (es, rr1) := match rr with
          | 43 :: rr2 => ((1 : Int), rr2)
          | 45 :: rr2 => ((-1 : Int), rr2)
          | _ => ((1 : Int), rr)
        let ds := rr1.takeWhile isDig
        if ds = [] ∨ rr1.drop ds.length ≠ [] then .nan
        else
          .fin (decScale (sgn * (digitsToNat (intDs ++ fracDs) : Int))
            (es * (digitsToNat ds : Int) - (fracDs.length : Int)))
      | [] =>
        .fin (decScale (sgn * (digitsToNat (intDs ++ fracDs) : Int))
          (-(fracDs.length : Int)))
      | _ => .nan

/-- JS `StringToNumber`: trim, empty is `0`, `0x`/`0o`/`0b` integer forms
(unsigned only), otherwise a signed decimal literal; anything else is NaN. -/
def strToNumber (s : List Nat) : JsNum :=
  let t := ((s.dropWhile isJsWs).reverse.dropWhile isJsWs).reverse
  match t with
  | [] => .fin 0
  | 48 :: 120 :: ds | 48 :: 88 :: ds =>
    match parseRadixNat 16 ds with
    | some n => .fin (n : Rat)
    | none => .nan
  | 48 :: 111 :: ds | 48 :: 79 :: ds =>
    match parseRadixNat 8 ds with
    | some n => .fin (n : Rat)
    | none => .nan
  | 48 :: 98 :: ds | 48 :: 66 :: ds =>
    match parseRadixNat 2 ds with
    | some n => .fin (n : Rat)
    | none => .nan
  | _ => strDecimal t

/-- `ToNumber` of a JSON value. Arrays coerce through `toString` (a comma
join of stringified elements) in JS; that join is approximated by NaN here,
and no property below depends on an `exp` claim that is an array. A plain
object coerces to the string `[object Object]`, which is NaN exactly. -/
def jsToNumber : Jv → JsNum
  | .jnull => .fin 0
  | .jbool b => .fin (if b then 1 else 0)
  | .jnum q => .fin q
  | .jstr s => strToNumber s
  | .jarr _ => .nan
  | .jobj _ => .nan

/-- JS `v < n` for a finite right operand: any NaN comparison is false. -/
def jsLtNum (v : Jv) (n : Rat) : Bool :=
  match jsToNumber v with
  | .fin q => decide (q < n)
  | .negInf => true
  | .posInf => false
  | .nan => false

/-! ## Token codec: `parseTokenPayload` and `isTokenExpired`

Embedding of `TokenUtils.parseTokenPayload` and `TokenUtils.isTokenExpired`
(`src/modules/auth/guards/auth.guard.ts`, lines 224-251). -/

/-- JS `String.prototype.split` with separator `"."` over code units. -/
def splitDot : List Nat → List (List Nat)
  | [] => [[]]
  | u :: rest =>
    let r := splitDot rest
    if u = 46 then [] :: r
    else
      match r with
      | h :: t => (u :: h) :: t
      | [] => [[u]]

/-- Scalar values of a Lean string, standing for the JS string contents
(astral characters differ in representation from UTF-16 code units, but both
representations are rejected by `atob`, so every reachable result agrees). -/
def strUnits (s : String) : List Nat := s.data.map Char.toNat

/-- `TokenUtils.parseTokenPayload`: split on the dots, base64url-to-base64
character replacement on the middle segment, `atob`, percent-decoding
(strict UTF-8) and `JSON.parse`; any failure in the pipeline is caught and
returned as `null` (`none`). A token with fewer than two segments makes the
source dereference `undefined`, which throws and is likewise caught. -/
def TokenUtils.parseTokenPayload (token : String) : Option Jv :=
  match splitDot (strUnits token) with
  | _ :: seg :: _ => do
    let b64 := seg.map (fun u => if u = 45 then 43 else if u = 95 then 47 else u)
    let bytes ← atob b64
    let units ← utf8Decode bytes
    jsonParse units
  | _ => none

/-- The code units of the key `exp`. -/
def expKey : List Nat := [101, 120, 112]

/-- `TokenUtils.isTokenExpired`: fail-closed truthiness test on the payload
and its `exp` member, then the JS comparison `payload.exp < currentTime`
with `currentTime = Math.floor(Date.now() / 1000)`. -/
def TokenUtils.isTokenExpired (token : String) (nowMs : Nat) : Bool :=
  match TokenUtils.parseTokenPayload token with
  | none => true
  | some payload =>
    if jsFalsy payload then true
    else
      match jvField payload expKey with
      | none => true
      | some e =>
        if jsFalsy e then true
        else jsLtNum e ((nowMs / 1000 : Nat) : Rat)

/-! ## Data model

`AuthUser` from `src/modules/auth/types/auth.types.ts`; the numeric `id` is
modelled as an integer. -/

structure AuthUser where
  id : Int
  name : String
  email : String
  username : String
  firstName : Option String := none
  lastName : Option String := none
  gender : Option String := none
  image : Option String := none
  role : Option String := none
  permissions : Option (List String) := none
deriving DecidableEq, Repr

/-- `Partial<AuthUser>` for `updateUser`: every field optional.  (A field
explicitly set to `undefined` in the partial is not distinguished from an
absent field; no property below depends on that corner of the spread
operator.) -/
structure UserPatch where
  id : Option Int := none
  name : Option String := none
  email : Option String := none
  username : Option String := none
  firstName : Option (Option String) := none
  lastName : Option (Option String) := none
  gender : Option (Option String) := none
  image : Option (Option String) := none
  role : Option (Option String) := none
  permissions : Option (Option (List String)) := none
deriving DecidableEq, Repr

/-- The spread `{ ...user, ...updatedUser }`. -/
def mergeUser (u : AuthUser) (p : UserPatch) : AuthUser :=
  { id := p.id.getD u.id
    name := p.name.getD u.name
    email := p.email.getD u.email
    username := p.username.getD u.username
    firstName := p.firstName.getD u.firstName
    lastName := p.lastName.getD u.lastName
    gender := p.gender.getD u.gender
    image := p.image.getD u.image
    role := p.role.getD u.role
    permissions := p.permissions.getD u.permissions }

/-- `AUTH_ROUTES.LOGIN` from `src/modules/auth/constants`. -/
def AUTH_ROUTES.LOGIN : String := "/auth/sign-in"

/-! ## Persistence adapter

The two browser storage tiers, modelled per key.  The keys used by the
source are the distinct constants `auth_token`, `auth_user`,
`auth_remember_me` (all under `AUTH_STORAGE_KEYS`) and `lastActivity`, so
each cell of this record is one key of one tier; the JSON round-trip of the
stored user record is modelled as the identity. -/

structure WebStorage where
  sessToken : Option String
  localToken : Option String
  sessUser : Option AuthUser
  localUser : Option AuthUser
  localRemember : Option String
  sessLastActivity : Option Nat
  localLastActivity : Option Nat
deriving DecidableEq, Repr

def emptyStorage : WebStorage :=
  { sessToken := none, localToken := none, sessUser := none, localUser := none,
    localRemember := none, sessLastActivity := none, localLastActivity := none }

/-- `TokenUtils.getToken`: `sessionStorage.getItem(TOKEN) ||
localStorage.getItem(TOKEN)` (the ephemeral tier wins unless its value is
`null` or the empty string). -/
def TokenUtils.getToken (w : WebStorage) : Option String :=
  jsOrStr w.sessToken w.localToken

/-- `TokenUtils.setToken`: the durable tier plus the remember marker when
`remember` is set, the ephemeral tier only otherwise. -/
def TokenUtils.setToken (w : WebStorage) (token : String) (remember : Bool) : WebStorage :=
  if remember then { w with localToken := some token, localRemember := some "true" }
  else { w with sessToken := some token }

/-- `TokenUtils.removeToken`: clears both tiers and the remember marker. -/
def TokenUtils.removeToken (w : WebStorage) : WebStorage :=
  { w with sessToken := none, localToken := none, localRemember := none }

/-- `UserUtils.getUser`: ephemeral tier first, then durable. -/
def UserUtils.getUser (w : WebStorage) : Option AuthUser :=
  match w.sessUser with
  | some u => some u
  | none => w.localUser

/-- `UserUtils.setUser`: one tier, selected by `remember`. -/
def UserUtils.setUser (w : WebStorage) (u : AuthUser) (remember : Bool) : WebStorage :=
  if remember then { w with localUser := some u }
  else { w with sessUser := some u }

/-- `UserUtils.removeUser`: clears both tiers. -/
def UserUtils.removeUser (w : WebStorage) : WebStorage :=
  { w with sessUser := none, localUser := none }

/-- `UserUtils.hasPermission`: `user.permissions?.includes(permission) ??
false`. -/
def UserUtils.hasPermission (u : AuthUser) (permission : String) : Bool :=
  match u.permissions with
  | some ps => ps.contains permission
  | none => false

/-- `UserUtils.hasRole`: `user.role === role`. -/
def UserUtils.hasRole (u : AuthUser) (role : String) : Bool :=
  u.role == some role

/-! ## Session clock (`SessionUtils`) -/

/-- `SessionUtils.updateLastActivity`: stamps the ephemeral tier only. -/
def SessionUtils.updateLastActivity (w : WebStorage) (nowMs : Nat) : WebStorage :=
  { w with sessLastActivity := some nowMs }

/-- `SessionUtils.getLastActivity`: reads the ephemeral tier only. -/
def SessionUtils.getLastActivity (w : WebStorage) : Option Nat :=
  w.sessLastActivity

/-- `SessionUtils.isSessionExpired`: true when there is no recorded activity
(a recorded timestamp `0` is falsy in JS and counts as absent) or the
elapsed time exceeds the timeout. -/
def SessionUtils.isSessionExpired (w : WebStorage) (timeoutMs : Nat) (nowMs : Nat) : Bool :=
  match SessionUtils.getLastActivity w with
  | none => true
  | some la => if la = 0 then true else decide ((nowMs : Int) - (la : Int) > (timeoutMs : Int))

/-- `SessionUtils.clearAuthData`: removes token, user and the activity stamp
from both tiers. -/
def SessionUtils.clearAuthData (w : WebStorage) : WebStorage :=
  let w1 := TokenUtils.removeToken w
  let w2 := UserUtils.removeUser w1
  { w2 with sessLastActivity := none, localLastActivity := none }

/-! ## Auth state store (`src/modules/auth/stores/auth.store.ts`)

The in-memory refs plus the storage; modelled after the lazy initial load
from storage has run (`ensureStateInitialized` only guards that first load).
Storage writes are wrapped in try/catch by the source and degrade to a
warning, so each action takes a `persistOk` flag: when it is false the
storage is left unchanged, which is exactly the caught-failure behaviour. -/

structure StoreState where
  user : Option AuthUser
  token : Option String
  isLoading : Bool
  lastActivity : Option Nat
  storage : WebStorage
deriving DecidableEq, Repr

def initialStore : StoreState :=
  { user := none, token := none, isLoading := false, lastActivity := none,
    storage := emptyStorage }

/-- The derived `isAuthenticated`: false when the token ref is falsy, else
the negation of `TokenUtils.isTokenExpired` (whose Lean embedding is total,
so the surrounding try/catch is dead). -/
def AuthStore.isAuthenticated (s : StoreState) (nowMs : Nat) : Bool :=
  match s.token with
  | none => false
  | some t => if t = "" then false else !TokenUtils.isTokenExpired t nowMs

/-- `updateActivity`: stamps the ref first, then best-effort storage. -/
def AuthStore.updateActivity (s : StoreState) (nowMs : Nat) (persistOk : Bool) : StoreState :=
  let s1 := { s with lastActivity := some nowMs }
  if persistOk then { s1 with storage := SessionUtils.updateLastActivity s1.storage nowMs }
  else s1

/-- `setAuth(authToken, authUser, remember)`: warn-and-return when the token
or the user is falsy; otherwise assign both refs, persist both records
best-effort, and stamp activity. -/
def AuthStore.setAuth (s : StoreState) (authToken : Option String)
    (authUser : Option AuthUser) (remember : Bool) (nowMs : Nat) (persistOk : Bool) :
    StoreState :=
  match authToken, authUser with
  | some t, some u =>
    if t = "" then s
    else
      let s1 := { s with token := some t, user := some u }
      let s2 :=
        if persistOk then
          { s1 with storage := UserUtils.setUser (TokenUtils.setToken s1.storage t remember) u remember }
        else s1
      AuthStore.updateActivity s2 nowMs persistOk
  | _, _ => s

/-- `clearAuth()`: nulls the three refs first, then best-effort erases the
persisted records; a storage failure leaves the refs cleared. -/
def AuthStore.clearAuth (s : StoreState) (persistOk : Bool) : StoreState :=
  let s1 := { s with token := none, user := none, lastActivity := none }
  if persistOk then { s1 with storage := SessionUtils.clearAuthData s1.storage }
  else s1

/-- `updateUser(updatedUser)`: warn-and-return without a loaded user, else
spread-merge, reread the remember marker from the durable tier, and persist
best-effort. -/
def AuthStore.updateUser (s : StoreState) (p : UserPatch) (persistOk : Bool) : StoreState :=
  match s.user with
  | none => s
  | some u =>
    let newUser := mergeUser u p
    let s1 := { s with user := some newUser }
    if persistOk then
      let remember := strTruthy s.storage.localRemember
      { s1 with storage := UserUtils.setUser s1.storage newUser remember }
    else s1

/-- Store-level `hasPermission`. -/
def AuthStore.hasPermission (s : StoreState) (permission : String) : Bool :=
  match s.user with
  | none => false
  | some u => UserUtils.hasPermission u permission

/-- Store-level `hasRole`. -/
def AuthStore.hasRole (s : StoreState) (role : String) : Bool :=
  match s.user with
  | none => false
  | some u => UserUtils.hasRole u role

/-- `checkSession()`: false and a full clear when the token ref is falsy or
the token is expired; true with the state untouched otherwise. -/
def AuthStore.checkSession (s : StoreState) (nowMs : Nat) (persistOk : Bool) :
    Bool × StoreState :=
  match s.token with
  | none => (false, AuthStore.clearAuth s persistOk)
  | some t =>
    if t = "" then (false, AuthStore.clearAuth s persistOk)
    else if TokenUtils.isTokenExpired t nowMs then (false, AuthStore.clearAuth s persistOk)
    else (true, s)

/-! ## Legacy store (`src/stores/auth.ts`)

The pre-migration store kept in the repository: a token ref persisted in the
ephemeral tier under the key `token`, a user ref, and `isLogin`. -/

structure LegacyState where
  user : Option AuthUser
  token : Option String
  sessionToken : Option String
deriving DecidableEq, Repr

def legacyInitial : LegacyState :=
  { user := none, token := none, sessionToken := none }

/-- Legacy `setAuth(_token, _user)`: returns early on a falsy token; assigns
and persists the token, then returns early on a falsy user, else assigns the
user. -/
def LegacyStore.setAuth (s : LegacyState) (t : Option String) (u : Option AuthUser) :
    LegacyState :=
  match t with
  | none => s
  | some tk =>
    if tk = "" then s
    else
      let s1 := { s with token := some tk, sessionToken := some tk }
      match u with
      | none => s1
      | some us => { s1 with user := some us }

/-- Legacy `clearAuth()`: nulls both refs and the persisted token. -/
def LegacyStore.clearAuth (_s : LegacyState) : LegacyState :=
  { user := none, token := none, sessionToken := none }

/-- Legacy `isLogin`: `!!token.value`. -/
def LegacyStore.isLogin (s : LegacyState) : Bool :=
  strTruthy s.token

/-! ## Navigation guard chain (`src/modules/auth/guards/auth.guard.ts`)

Route metadata and the three `beforeEach` guards.  A guard is a function
from the target route and the navigation state to a decision (allow, or
redirect to a location with a query) and an updated state; `next(location)`
aborts the pending navigation, so the chain stops at the first redirect.
`UrlUtils.getRedirectUrl` reads the `redirect`/`returnUrl` query parameter of
the current window location; that stash is carried in the navigation
state. -/

structure RouteMeta where
  auth : Option Bool := none
  guest : Option Bool := none
  role : Option String := none
  permissions : Option (List String) := none
deriving DecidableEq, Repr

structure RouteLoc where
  meta : RouteMeta
  fullPath : String
deriving DecidableEq, Repr

structure RedirectTarget where
  path : String
  query : List (String × String)
deriving DecidableEq, Repr

inductive GuardDecision where
  | allow
  | redirect (target : RedirectTarget)
deriving DecidableEq, Repr

structure NavState where
  store : StoreState
  redirectStash : Option String
deriving DecidableEq, Repr

/-- The authentication guard: snapshots `isAuthenticated`, runs
`checkSession` for its side effect, then branches on `auth`/`guest`
metadata, stamping activity before allowing an authenticated navigation. -/
def authGuardStep (dest : RouteLoc) (ns : NavState) (nowMs : Nat) (persistOk : Bool) :
    GuardDecision × NavState :=
  let requiresAuth := dest.meta.auth == some true
  let requiresGuest := dest.meta.guest == some true
  let isAuth := AuthStore.isAuthenticated ns.store nowMs
  let st1 := (AuthStore.checkSession ns.store nowMs persistOk).2
  if requiresAuth && !isAuth then
    (.redirect ⟨AUTH_ROUTES.LOGIN, [("redirect", dest.fullPath)]⟩, { ns with store := st1 })
  else if requiresGuest && isAuth then
    match ns.redirectStash with
    | some url =>
      if url = "" then (.redirect ⟨"/dashboard", []⟩, { ns with store := st1 })
      else (.redirect ⟨url, []⟩, { store := st1, redirectStash := none })
    | none => (.redirect ⟨"/dashboard", []⟩, { ns with store := st1 })
  else
    let st2 := if isAuth then AuthStore.updateActivity st1 nowMs persistOk else st1
    (.allow, { ns with store := st2 })

/-- The permission guard: skip when neither `permissions` nor `role` is
truthy (an empty `permissions` array is truthy, an empty `role` string is
not), then authentication, then the role equality, then the some-element
permission test. -/
def permissionGuardStep (dest : RouteLoc) (ns : NavState) (nowMs : Nat) :
    GuardDecision × NavState :=
  let permsTruthy := dest.meta.permissions.isSome
  let roleTruthy := match dest.meta.role with
    | some r => r ≠ ""
    | none => false
  if !permsTruthy && !roleTruthy then (.allow, ns)
  else if !AuthStore.isAuthenticated ns.store nowMs then
    (.redirect ⟨AUTH_ROUTES.LOGIN, [("redirect", dest.fullPath)]⟩, ns)
  else
    let roleFails := match dest.meta.role with
      | some r => if r = "" then false else !AuthStore.hasRole ns.store r
      | none => false
    if roleFails then (.redirect ⟨"/403", []⟩, ns)
    else
      match dest.meta.permissions with
      | some ps =>
        if ps.any (fun p => AuthStore.hasPermission ns.store p) then (.allow, ns)
        else (.redirect ⟨"/403", []⟩, ns)
      | none => (.allow, ns)

/-- The session guard: guest routes skipped; for an authenticated session,
re-validate via `checkSession` and redirect with an `expired` marker on
failure. -/
def sessionGuardStep (dest : RouteLoc) (ns : NavState) (nowMs : Nat) (persistOk : Bool) :
    GuardDecision × NavState :=
  if dest.meta.guest == some true then (.allow, ns)
  else if AuthStore.isAuthenticated ns.store nowMs then
    let r := AuthStore.checkSession ns.store nowMs persistOk
    if r.1 then (.allow, { ns with store := r.2 })
    else
      (.redirect ⟨AUTH_ROUTES.LOGIN, [("redirect", dest.fullPath), ("expired", "true")]⟩,
        { ns with store := r.2 })
  else (.allow, ns)

inductive GuardKind where
  | auth
  | permission
  | session
deriving DecidableEq, Repr

def runGuard (k : GuardKind) (dest : RouteLoc) (ns : NavState) (nowMs : Nat) (persistOk : Bool) :
    GuardDecision × NavState :=
  match k with
  | .auth => authGuardStep dest ns nowMs persistOk
  | .permission => permissionGuardStep dest ns nowMs
  | .session => sessionGuardStep dest ns nowMs persistOk

/-- `router.beforeEach` guards run in registration order; a redirect aborts
the pending navigation, so later guards do not run. -/
def runGuardChain (ks : List GuardKind) (dest : RouteLoc) (ns : NavState) (nowMs : Nat)
    (persistOk : Bool) : GuardDecision × NavState :=
  match ks with
  | [] => (.allow, ns)
  | k :: rest =>
    match runGuard k dest ns nowMs persistOk with
    | (.allow, ns1) => runGuardChain rest dest ns1 nowMs persistOk
    | (.redirect t, ns1) => (.redirect t, ns1)

/-- Registration order of `setupRouterGuards` in the optimized
`src/modules/auth/setup.ts` (lines 58-73): `authGuard(router)` then
`sessionGuard(router)` then `permissionGuard(router)`. -/
def setupRouterGuardsOrder : List GuardKind := [.auth, .session, .permission]

/-- Registration order of the simple `setupAuthModule` variant
(`src/modules/auth/setup.ts`, lines 285-298): `authGuard(router)` then
`permissionGuard(router)` then `sessionGuard(router)`. -/
def setupAuthModuleSimpleOrder : List GuardKind := [.auth, .permission, .session]

/-! ## Logout watcher (`setupAuthStateManagement` / `setupLogoutWatcher`)

`watch(isAuthenticated, cb)` with `immediate: false` invokes the callback
only when the observed value changes.  A trace is the successive values of
`isAuthenticated` paired with the current route path at that moment; the
runner fires the callback on each change and collects the redirects it
issues. -/

/-- The char codes of `/auth`, for `path.startsWith('/auth')`. -/
def pathUnderAuth (p : String) : Bool :=
  p.data.take 5 = "/auth".data

/-- The watcher callback body: a redirect to the login route exactly on a
strict true-to-false transition observed outside the auth pages. -/
def logoutWatchCallback (newAuth oldAuth : Bool) (currentPath : String) : Option String :=
  if oldAuth == true && newAuth == false then
    if pathUnderAuth currentPath then none
    else some AUTH_ROUTES.LOGIN
  else none

/-- The watch runner: the callback runs only on changes of the source. -/
def runAuthWatch (cb : Bool → Bool → String → Option String) :
    Bool → List (Bool × String) → List String
  | _, [] => []
  | prev, (v, path) :: rest =>
    if v ≠ prev then
      match cb v prev path with
      | some r => r :: runAuthWatch cb v rest
      | none => runAuthWatch cb v rest
    else runAuthWatch cb prev rest

/-- The (previous, current, path) triples along a trace. -/
def watchTransitions : Bool → List (Bool × String) → List (Bool × Bool × String)
  | _, [] => []
  | prev, (v, p) :: rest => (prev, v, p) :: watchTransitions v rest

/-! ## Concrete sample data

Tokens whose middle segment is unpadded base64url of a JSON object:
`eyJleHAiOjEwMH0` is `\x7b"exp":100\x7d`, `eyJleHAiOjk5OTk5OTk5OTl9` is
`\x7b"exp":9999999999\x7d`, and `eyJleHAiOjB9` is `\x7b"exp":0\x7d`. -/

def tokPast : String := "a.eyJleHAiOjEwMH0.b"

def tokFuture : String := "a.eyJleHAiOjk5OTk5OTk5OTl9.b"

def tokZero : String := "a.eyJleHAiOjB9.b"

def sampleUser : AuthUser :=
  { id := 1, name := "Alice", email := "alice@example.com", username := "alice" }

def bobUser : AuthUser :=
  { id := 2, name := "Bob", email := "bob@example.com", username := "bob",
    role := some "user", permissions := some ["read", "write"] }

/-- The pairing invariant of C2: `user` and `token` are both set or both
absent. -/
def pairedState (s : StoreState) : Prop := s.user.isSome = s.token.isSome

/-- A route with `meta: \x7b auth: true, role: 'admin' \x7d`. -/
def adminRoute (path : String) : RouteLoc :=
  { meta := { auth := some true, role := some "admin" }, fullPath := path }

/-- A route with `meta: \x7b permissions: [] \x7d` and no role. -/
def emptyPermsRoute (path : String) : RouteLoc :=
  { meta := { permissions := some [] }, fullPath := path }

/-- An authenticated-only route without role or permission requirements. -/
def dashRoute : RouteLoc :=
  { meta := { auth := some true }, fullPath := "/dashboard" }

/-- A store holding an unexpired token whose last recorded activity is 31
minutes in the past at the reference instant `1861000` ms. -/
def staleStorage : WebStorage :=
  { emptyStorage with
    sessToken := some tokFuture
    sessUser := some bobUser
    sessLastActivity := some 1000 }

def staleStore : StoreState :=
  { user := some bobUser, token := some tokFuture, isLoading := false,
    lastActivity := some 1000, storage := staleStorage }

/-- An authenticated navigation state at reference instant `1861000` ms. -/
def authedNs : NavState :=
  { store := staleStore, redirectStash := none }

/-- An unauthenticated navigation state. -/
def guestNs : NavState :=
  { store := initialStore, redirectStash := none }

/-! ## Helper lemmas -/

theorem isTokenExpired_empty (nowMs : Nat) : TokenUtils.isTokenExpired "" nowMs = true := rfl

/-! ## C4: token expiry inspection -/

/-- C4: for every token string whose payload decodes to an object with a
numeric `exp` claim `e` (seconds since epoch), `isTokenExpired` returns true
iff `e` is below the current time in whole seconds, at every real clock
instant (from one second after the epoch on); and for every token that fails
to decode, or whose decoded payload lacks an `exp` member, it returns true
(fail-closed).  The embedding of the whole pipeline is total, so no
exception escapes, matching the catch-all in `parseTokenPayload`.  The clock
bound is needed because a payload with claim `exp = 0` is falsy in JS and
therefore reported expired even at the epoch instant `now = 0`, where
`0 < 0` fails; from `nowMs ≥ 1000` the truthiness shortcut agrees with the
comparison. -/
theorem c4_isTokenExpired_spec (t : String) (nowMs : Nat) (hclk : 1000 ≤ nowMs) :
    (∀ p e, TokenUtils.parseTokenPayload t = some p →
      jvField p expKey = some (Jv.jnum e) →
      TokenUtils.isTokenExpired t nowMs = decide (e < ((nowMs / 1000 : Nat) : Rat))) ∧
    (TokenUtils.parseTokenPayload t = none → TokenUtils.isTokenExpired t nowMs = true) ∧
    (∀ p, TokenUtils.parseTokenPayload t = some p → jvField p expKey = none →
      TokenUtils.isTokenExpired t nowMs = true) := by
  refine ⟨?_, ?_, ?_⟩
  · intro p e hp he
    have hobj : jsFalsy p = false := by
      cases p with
      | jobj kvs => rfl
      | jnull => simp [jvField] at he
      | jbool b => simp [jvField] at he
      | jnum q => simp [jvField] at he
      | jstr s => simp [jvField] at he
      | jarr xs => simp [jvField] at he
    unfold TokenUtils.isTokenExpired
    rw [hp]
    simp only [hobj, Bool.false_eq_true, if_false, he]
    by_cases h0 : e = 0
    · subst h0
      have hdiv : 0 < nowMs / 1000 := Nat.div_pos hclk (by norm_num)
      have hpos : (0 : Rat) < ((nowMs / 1000 : Nat) : Rat) := by exact_mod_cast hdiv
      simp [jsFalsy, jsLtNum, jsToNumber, hpos]
    · simp [jsFalsy, h0, jsLtNum, jsToNumber]
  · intro h
    unfold TokenUtils.isTokenExpired
    rw [h]
  · intro p hp hnone
    unfold TokenUtils.isTokenExpired
    rw [hp]
    cases hf : jsFalsy p <;> simp [hf, hnone]

/-- Witness for C4 at the concrete token with claim `exp = 100` and clock
`2000000` ms. -/
theorem c4_isTokenExpired_spec_witness :
    TokenUtils.isTokenExpired tokPast 2000000 =
      decide ((100 : Rat) < ((2000000 / 1000 : Nat) : Rat)) :=
  (c4_isTokenExpired_spec tokPast 2000000 (by decide)).1
    (Jv.jobj [(expKey, Jv.jnum 100)]) 100 (by rfl) (by rfl)

/-! ## C5: checkSession -/

/-- C5: `checkSession` returns false and hands back the `clearAuth`-cleared
state (token, user and activity nulled) whenever the in-memory token is
absent or expired per the token codec, and returns true with the state
unchanged otherwise; in particular after `setAuth` is attempted with an
expired token, `checkSession` returns false and the store is cleared. -/
theorem c5_checkSession_spec (s : StoreState) (nowMs : Nat) (ok : Bool) :
    (∀ t, s.token = some t → TokenUtils.isTokenExpired t nowMs = false →
      AuthStore.checkSession s nowMs ok = (true, s)) ∧
    ((s.token = none ∨ (∃ t, s.token = some t ∧ TokenUtils.isTokenExpired t nowMs = true)) →
      AuthStore.checkSession s nowMs ok = (false, AuthStore.clearAuth s ok) ∧
      (AuthStore.clearAuth s ok).token = none ∧ (AuthStore.clearAuth s ok).user = none ∧
      (AuthStore.clearAuth s ok).lastActivity = none) ∧
    (∀ t u rem, t ≠ "" → TokenUtils.isTokenExpired t nowMs = true →
      AuthStore.checkSession (AuthStore.setAuth s (some t) (some u) rem nowMs ok) nowMs ok =
        (false,
          AuthStore.clearAuth (AuthStore.setAuth s (some t) (some u) rem nowMs ok) ok)) := by
  have hclear : ∀ s2 : StoreState, (AuthStore.clearAuth s2 ok).token = none ∧
      (AuthStore.clearAuth s2 ok).user = none ∧
      (AuthStore.clearAuth s2 ok).lastActivity = none := by
    intro s2
    unfold AuthStore.clearAuth
    cases ok <;> simp [SessionUtils.clearAuthData, TokenUtils.removeToken, UserUtils.removeUser]
  refine ⟨?_, ?_, ?_⟩
  · intro t ht hexp
    by_cases h0 : t = ""
    · subst h0
      rw [isTokenExpired_empty] at hexp
      simp at hexp
    · unfold AuthStore.checkSession
      rw [ht]
      simp [h0, hexp]
  · rintro (hn | ⟨t, ht, hexp⟩)
    · refine ⟨?_, hclear s⟩
      unfold AuthStore.checkSession
      rw [hn]
    · refine ⟨?_, hclear s⟩
      unfold AuthStore.checkSession
      rw [ht]
      by_cases h0 : t = "" <;> simp [h0, hexp]
  · intro t u rem ht hexp
    have htok : (AuthStore.setAuth s (some t) (some u) rem nowMs ok).token = some t := by
      unfold AuthStore.setAuth AuthStore.updateActivity
      cases ok <;> simp [ht]
    unfold AuthStore.checkSession
    rw [htok]
    simp [ht, hexp]

/-- Witness for C5: scenario B at concrete values — `setAuth` with a token
whose expiry (`100` s) is in the past of the clock (`10^12` ms), then
`checkSession` returns false with the cleared store. -/
theorem c5_checkSession_spec_witness :
    AuthStore.checkSession
        (AuthStore.setAuth initialStore (some tokPast) (some sampleUser) false 1000000000000 true)
        1000000000000 true =
      (false,
        AuthStore.clearAuth
          (AuthStore.setAuth initialStore (some tokPast) (some sampleUser) false 1000000000000
            true) true) :=
  (c5_checkSession_spec initialStore 1000000000000 true).2.2 tokPast sampleUser false
    (by decide) (by decide)

/-! ## C6: clearAuth -/

/-- C6: `clearAuth` always results in `isAuthenticated = false`, for every
prior state and whether or not the persistence erase succeeds (`ok` covers
both); the in-memory token, user and lastActivity are nulled, and on a
failing erase the storage is simply left as it was — the in-memory clear is
not rolled back. -/
theorem c6_clearAuth_spec (s : StoreState) (ok : Bool) (nowMs : Nat) :
    AuthStore.isAuthenticated (AuthStore.clearAuth s ok) nowMs = false ∧
    (AuthStore.clearAuth s ok).token = none ∧
    (AuthStore.clearAuth s ok).user = none ∧
    (AuthStore.clearAuth s ok).lastActivity = none ∧
    (AuthStore.clearAuth s false).storage = s.storage := by
  unfold AuthStore.clearAuth AuthStore.isAuthenticated
  cases ok <;> simp

/-! ## C2: the user/token pairing invariant -/

/-- C2 counterexample: the legacy store (`src/stores/auth.ts`) assigns and
persists the token before validating the user, so `setAuth` with a present
token and an absent user, from the empty state, completes with the token set
and the user absent — a partial update with respect to the two fields. -/
theorem c2_legacy_setAuth_partial :
    (LegacyStore.setAuth legacyInitial (some "tok") none).token = some "tok" ∧
    (LegacyStore.setAuth legacyInitial (some "tok") none).user = none := by decide

/-- C2 amended: every mutation path of the modular auth store
(`src/modules/auth/stores/auth.store.ts`) — `setAuth` with any combination
of present and absent token and user, `clearAuth`, and `updateUser` —
preserves the pairing of `user` and `token`: from any state where both are
set or both are absent, the state after the operation again has both set or
both absent, whether or not persistence succeeds.  The legacy store's
`setAuth` violates the original claim (see the counterexample). -/
theorem c2_authStore_pairing (s : StoreState) (h : pairedState s) (t : Option String)
    (u : Option AuthUser) (rem ok ok2 ok3 : Bool) (nowMs : Nat) (p : UserPatch) :
    pairedState (AuthStore.setAuth s t u rem nowMs ok) ∧
    pairedState (AuthStore.clearAuth s ok2) ∧
    pairedState (AuthStore.updateUser s p ok3) := by
  unfold pairedState at h ⊢
  refine ⟨?_, ?_, ?_⟩
  · unfold AuthStore.setAuth AuthStore.updateActivity
    match t, u with
    | none, none => exact h
    | none, some _ => exact h
    | some tk, none => exact h
    | some tk, some us =>
      by_cases h0 : tk = ""
      · simp only [h0, if_true]
        exact h
      · simp only [h0, if_false]
        cases ok <;> simp
  · unfold AuthStore.clearAuth
    cases ok2 <;> simp
  · unfold AuthStore.updateUser
    match hu : s.user with
    | none => exact h
    | some u0 =>
      rw [hu] at h
      cases ok3 <;> simp_all [UserUtils.setUser]

/-- Witness for the amended C2 at concrete inputs. -/
theorem c2_authStore_pairing_witness :
    pairedState (AuthStore.setAuth initialStore (some "t") (some sampleUser) false 5 true) :=
  (c2_authStore_pairing initialStore (by rfl) (some "t") (some sampleUser) false true true
    true 5 ({} : UserPatch)).1

/-! ## C7: persistence after setAuth -/

/-- C7 counterexample: after a non-remember session stored the token
`oldTok` in the ephemeral tier, `setAuth` with `remember = true` writes
`newTok` to the durable tier only, and the adapter's read — ephemeral tier
first — returns the stale `oldTok`, not the token just set. -/
theorem c7_persist_stale_ephemeral :
    TokenUtils.getToken
        (AuthStore.setAuth
          (AuthStore.setAuth initialStore (some "oldTok") (some sampleUser) false 1000 true)
          (some "newTok") (some bobUser) true 2000 true).storage = some "oldTok" ∧
    some "oldTok" ≠ some "newTok" := by decide

/-- C7 amended: for every valid token and user, `setAuth` followed by the
adapter's `getToken`/`getUser` returns them from the tier selected by
`remember` — unconditionally when `remember` is false (the write goes to the
ephemeral tier, which wins on read), and, when `remember` is true, provided
the ephemeral tier holds no token or user record (the read prefers the
ephemeral tier, so a stale ephemeral record from an earlier non-remember
session shadows the fresh durable write — see the counterexample). -/
theorem c7_setAuth_persist_spec (s : StoreState) (t : String) (u : AuthUser) (nowMs : Nat)
    (ht : t ≠ "") :
    (TokenUtils.getToken
        (AuthStore.setAuth s (some t) (some u) false nowMs true).storage = some t ∧
      UserUtils.getUser
        (AuthStore.setAuth s (some t) (some u) false nowMs true).storage = some u ∧
      (AuthStore.setAuth s (some t) (some u) false nowMs true).storage.sessToken = some t ∧
      (AuthStore.setAuth s (some t) (some u) false nowMs true).storage.sessUser = some u) ∧
    (s.storage.sessToken = none → s.storage.sessUser = none →
      TokenUtils.getToken
          (AuthStore.setAuth s (some t) (some u) true nowMs true).storage = some t ∧
      UserUtils.getUser
          (AuthStore.setAuth s (some t) (some u) true nowMs true).storage = some u ∧
      (AuthStore.setAuth s (some t) (some u) true nowMs true).storage.localToken = some t ∧
      (AuthStore.setAuth s (some t) (some u) true nowMs true).storage.localUser = some u) := by
  constructor
  · unfold AuthStore.setAuth AuthStore.updateActivity TokenUtils.setToken UserUtils.setUser
    simp [ht, TokenUtils.getToken, jsOrStr, UserUtils.getUser, SessionUtils.updateLastActivity]
  · intro hst hsu
    unfold AuthStore.setAuth AuthStore.updateActivity TokenUtils.setToken UserUtils.setUser
    simp [ht, TokenUtils.getToken, jsOrStr, UserUtils.getUser,
      SessionUtils.updateLastActivity, hst, hsu]

/-- Witness for the amended C7 at concrete inputs. -/
theorem c7_setAuth_persist_spec_witness :
    TokenUtils.getToken
        (AuthStore.setAuth initialStore (some "tk") (some sampleUser) false 5 true).storage =
      some "tk" :=
  ((c7_setAuth_persist_spec initialStore "tk" sampleUser 5 (by decide)).1).1

/-! ## C3: inactivity expiry is never enforced (code bug) -/

/-- C3, at the failing input: a token with claim `exp = 9999999999` s
(unexpired at the clock `1861000` ms), inactivity timeout 30 minutes, last
recorded activity 31 minutes before the clock.  The inactivity utility
`SessionUtils.isSessionExpired` reports the session expired, yet
`checkSession` — which consults only the token expiry — returns true with
the state untouched, and the full guard chain (either registration order)
allows the navigation: the inactivity expiry is never evaluated by any
caller, so a session with an unexpired token and stale activity is not
ended. -/
theorem c3_inactivity_not_enforced :
    SessionUtils.isSessionExpired staleStore.storage 1800000 1861000 = true ∧
    TokenUtils.isTokenExpired tokFuture 1861000 = false ∧
    AuthStore.checkSession staleStore 1861000 true = (true, staleStore) ∧
    (runGuardChain setupRouterGuardsOrder dashRoute ⟨staleStore, none⟩ 1861000 true).1 =
      GuardDecision.allow ∧
    (runGuardChain setupAuthModuleSimpleOrder dashRoute ⟨staleStore, none⟩ 1861000 true).1 =
      GuardDecision.allow := by decide

/-! ## C1: guard ordering -/

/-- C1 counterexample: the optimized `setupRouterGuards` registers the
session guard before the permission guard, so the single fixed order
authentication-permission-session claimed for every pending navigation does
not hold of it; the simple `setupAuthModule` variant does register the
claimed order. -/
theorem c1_guard_order_counterexample :
    setupRouterGuardsOrder = [GuardKind.auth, GuardKind.session, GuardKind.permission] ∧
    setupRouterGuardsOrder ≠ [GuardKind.auth, GuardKind.permission, GuardKind.session] ∧
    setupAuthModuleSimpleOrder = [GuardKind.auth, GuardKind.permission, GuardKind.session] := by
  decide

theorem checkSession_of_isAuth (s : StoreState) (nowMs : Nat) (ok : Bool)
    (h : AuthStore.isAuthenticated s nowMs = true) :
    AuthStore.checkSession s nowMs ok = (true, s) := by
  unfold AuthStore.isAuthenticated at h
  rcases htok : s.token with _ | t
  · rw [htok] at h
    simp at h
  · rw [htok] at h
    by_cases h0 : t = ""
    · subst h0
      simp at h
    · simp [h0] at h
      simp [AuthStore.checkSession, htok, h0, h]

theorem updateActivity_fields (s : StoreState) (nowMs : Nat) (ok : Bool) :
    (AuthStore.updateActivity s nowMs ok).token = s.token ∧
    (AuthStore.updateActivity s nowMs ok).user = s.user := by
  unfold AuthStore.updateActivity
  cases ok <;> simp

theorem isAuthenticated_updateActivity (s : StoreState) (nowMs n2 : Nat) (ok : Bool) :
    AuthStore.isAuthenticated (AuthStore.updateActivity s nowMs ok) n2 =
      AuthStore.isAuthenticated s n2 := by
  unfold AuthStore.isAuthenticated
  rw [(updateActivity_fields s nowMs ok).1]

theorem hasRole_updateActivity (s : StoreState) (nowMs : Nat) (ok : Bool) (r : String) :
    AuthStore.hasRole (AuthStore.updateActivity s nowMs ok) r = AuthStore.hasRole s r := by
  unfold AuthStore.hasRole
  rw [(updateActivity_fields s nowMs ok).2]

theorem authGuardStep_admin_unauth (ns : NavState) (nowMs : Nat) (ok : Bool) (path : String)
    (h : AuthStore.isAuthenticated ns.store nowMs = false) :
    authGuardStep (adminRoute path) ns nowMs ok =
      (GuardDecision.redirect ⟨AUTH_ROUTES.LOGIN, [("redirect", path)]⟩,
        { ns with store := (AuthStore.checkSession ns.store nowMs ok).2 }) := by
  unfold authGuardStep
  simp [adminRoute, h]

theorem authGuardStep_admin_auth (ns : NavState) (nowMs : Nat) (ok : Bool) (path : String)
    (h : AuthStore.isAuthenticated ns.store nowMs = true) :
    authGuardStep (adminRoute path) ns nowMs ok =
      (GuardDecision.allow,
        { ns with store := AuthStore.updateActivity ns.store nowMs ok }) := by
  unfold authGuardStep
  rw [checkSession_of_isAuth ns.store nowMs ok h]
  simp [adminRoute, h]

theorem permissionGuardStep_admin_forbidden (ns : NavState) (nowMs : Nat) (path : String)
    (hauth : AuthStore.isAuthenticated ns.store nowMs = true)
    (hrole : AuthStore.hasRole ns.store "admin" = false) :
    permissionGuardStep (adminRoute path) ns nowMs =
      (GuardDecision.redirect ⟨"/403", []⟩, ns) := by
  unfold permissionGuardStep
  simp [adminRoute, hauth, hrole]

theorem sessionGuardStep_admin_auth (ns : NavState) (nowMs : Nat) (ok : Bool) (path : String)
    (hauth : AuthStore.isAuthenticated ns.store nowMs = true) :
    sessionGuardStep (adminRoute path) ns nowMs ok = (GuardDecision.allow, ns) := by
  unfold sessionGuardStep
  rw [checkSession_of_isAuth ns.store nowMs ok hauth]
  simp [adminRoute, hauth]

/-- C1 amended: under both registration orders the authentication guard runs
first and a redirect by any guard terminates the chain; for a route with
`auth: true, role: 'admin'`, an unauthenticated user is denied at the
authentication guard (redirect to login carrying the target path) before any
downstream guard runs, and an authenticated non-admin user is denied at the
permission guard (redirect to the forbidden route), under both orders. -/
theorem c1_guard_chain_spec (ns : NavState) (nowMs : Nat) (ok : Bool) (path : String) :
    (AuthStore.isAuthenticated ns.store nowMs = false →
      (authGuardStep (adminRoute path) ns nowMs ok).1 =
        GuardDecision.redirect ⟨AUTH_ROUTES.LOGIN, [("redirect", path)]⟩ ∧
      (runGuardChain setupRouterGuardsOrder (adminRoute path) ns nowMs ok).1 =
        GuardDecision.redirect ⟨AUTH_ROUTES.LOGIN, [("redirect", path)]⟩ ∧
      (runGuardChain setupAuthModuleSimpleOrder (adminRoute path) ns nowMs ok).1 =
        GuardDecision.redirect ⟨AUTH_ROUTES.LOGIN, [("redirect", path)]⟩) ∧
    (AuthStore.isAuthenticated ns.store nowMs = true →
      AuthStore.hasRole ns.store "admin" = false →
      (permissionGuardStep (adminRoute path)
          (authGuardStep (adminRoute path) ns nowMs ok).2 nowMs).1 =
        GuardDecision.redirect ⟨"/403", []⟩ ∧
      (runGuardChain setupRouterGuardsOrder (adminRoute path) ns nowMs ok).1 =
        GuardDecision.redirect ⟨"/403", []⟩ ∧
      (runGuardChain setupAuthModuleSimpleOrder (adminRoute path) ns nowMs ok).1 =
        GuardDecision.redirect ⟨"/403", []⟩) := by
  constructor
  · intro h
    have h1 := authGuardStep_admin_unauth ns nowMs ok path h
    refine ⟨by rw [h1], ?_, ?_⟩
    · simp only [setupRouterGuardsOrder, runGuardChain, runGuard, h1]
    · simp only [setupAuthModuleSimpleOrder, runGuardChain, runGuard, h1]
  · intro hauth hrole
    have h1 := authGuardStep_admin_auth ns nowMs ok path hauth
    set ns1 : NavState := { ns with store := AuthStore.updateActivity ns.store nowMs ok }
      with hns1
    have hauth1 : AuthStore.isAuthenticated ns1.store nowMs = true := by
      rw [hns1]
      simpa [isAuthenticated_updateActivity] using hauth
    have hrole1 : AuthStore.hasRole ns1.store "admin" = false := by
      rw [hns1]
      simpa [hasRole_updateActivity] using hrole
    have h2 := permissionGuardStep_admin_forbidden ns1 nowMs path hauth1 hrole1
    have h3 := sessionGuardStep_admin_auth ns1 nowMs ok path hauth1
    refine ⟨?_, ?_, ?_⟩
    · rw [h1]
      show (permissionGuardStep (adminRoute path) ns1 nowMs).1 = _
      rw [h2]
    · simp only [setupRouterGuardsOrder, runGuardChain, runGuard, h1, h3, h2]
    · simp only [setupAuthModuleSimpleOrder, runGuardChain, runGuard, h1, h2]

/-- Witness for the amended C1: the authenticated non-admin user `bobUser`
is denied at the permission guard under the optimized registration order. -/
theorem c1_guard_chain_spec_witness :
    (runGuardChain setupRouterGuardsOrder (adminRoute "/admin") authedNs 1861000 true).1 =
      GuardDecision.redirect ⟨"/403", []⟩ :=
  ((c1_guard_chain_spec authedNs 1861000 true "/admin").2 (by decide) (by decide)).2.1

/-! ## C8: the permission guard case analysis -/

/-- C8: the permission guard allows unconditionally when the target declares
no role and no permission requirement; otherwise it redirects an
unauthenticated user to login with the target path as return parameter;
otherwise it redirects to the forbidden route when a required role is absent
from the user, or when permissions are required and the user holds none of
them (a some-element test across the required set); and it allows in all
remaining cases.  Following the source's truthiness tests, "declares a role
requirement" means a non-empty role string (the empty string is falsy) and
"declares a permission requirement" means the `permissions` array is
present (every array is truthy, the empty one included). -/
theorem c8_permissionGuard_spec (dest : RouteLoc) (ns : NavState) (nowMs : Nat) :
    ((dest.meta.role = none ∨ dest.meta.role = some "") → dest.meta.permissions = none →
      permissionGuardStep dest ns nowMs = (GuardDecision.allow, ns)) ∧
    (((∃ r, dest.meta.role = some r ∧ r ≠ "") ∨ dest.meta.permissions ≠ none) →
      AuthStore.isAuthenticated ns.store nowMs = false →
      permissionGuardStep dest ns nowMs =
        (GuardDecision.redirect ⟨AUTH_ROUTES.LOGIN, [("redirect", dest.fullPath)]⟩, ns)) ∧
    (∀ r, dest.meta.role = some r → r ≠ "" →
      AuthStore.isAuthenticated ns.store nowMs = true →
      AuthStore.hasRole ns.store r = false →
      permissionGuardStep dest ns nowMs = (GuardDecision.redirect ⟨"/403", []⟩, ns)) ∧
    (∀ ps, dest.meta.permissions = some ps →
      AuthStore.isAuthenticated ns.store nowMs = true →
      (∀ r, dest.meta.role = some r → r ≠ "" → AuthStore.hasRole ns.store r = true) →
      ps.any (fun p => AuthStore.hasPermission ns.store p) = false →
      permissionGuardStep dest ns nowMs = (GuardDecision.redirect ⟨"/403", []⟩, ns)) ∧
    (AuthStore.isAuthenticated ns.store nowMs = true →
      (∀ r, dest.meta.role = some r → r ≠ "" → AuthStore.hasRole ns.store r = true) →
      (∀ ps, dest.meta.permissions = some ps →
        ps.any (fun p => AuthStore.hasPermission ns.store p) = true) →
      permissionGuardStep dest ns nowMs = (GuardDecision.allow, ns)) := by
  refine ⟨?_, ?_, ?_, ?_, ?_⟩
  · rintro (hr | hr) hp <;> simp [permissionGuardStep, hr, hp]
  · rintro (⟨r, hr, hne⟩ | hp) hno
    · simp [permissionGuardStep, hr, hne, hno]
    · rcases hps : dest.meta.permissions with _ | ps
      · exact absurd hps hp
      · simp [permissionGuardStep, hps, hno]
  · intro r hr hne hauth hrole
    simp [permissionGuardStep, hr, hne, hauth, hrole]
  · intro ps hps hauth hroleok hnone
    rcases hr : dest.meta.role with _ | r
    · simp [permissionGuardStep, hr, hps, hauth, hnone]
    · by_cases hne : r = ""
      · simp [permissionGuardStep, hr, hne, hps, hauth, hnone]
      · have := hroleok r hr hne
        simp [permissionGuardStep, hr, hne, hps, hauth, hnone, this]
  · intro hauth hroleok hpsok
    rcases hr : dest.meta.role with _ | r <;> rcases hps : dest.meta.permissions with _ | ps
    · simp [permissionGuardStep, hr, hps]
    · simp [permissionGuardStep, hr, hps, hauth, hpsok ps hps]
    · by_cases hne : r = ""
      · simp [permissionGuardStep, hr, hps, hne]
      · simp [permissionGuardStep, hr, hps, hne, hauth, hroleok r hr hne]
    · by_cases hne : r = ""
      · simp [permissionGuardStep, hr, hps, hne, hauth, hpsok ps hps]
      · simp [permissionGuardStep, hr, hps, hne, hauth, hroleok r hr hne, hpsok ps hps]

/-- Witness for C8 at a concrete route and authenticated non-admin user. -/
theorem c8_permissionGuard_spec_witness :
    permissionGuardStep (adminRoute "/admin") authedNs 1861000 =
      (GuardDecision.redirect ⟨"/403", []⟩, authedNs) :=
  (c8_permissionGuard_spec (adminRoute "/admin") authedNs 1861000).2.2.1 "admin" rfl
    (by decide) (by decide) (by decide)

/-! ## C10: the empty permissions list -/

/-- C10: for every navigation to a route whose `meta.permissions` is present
but empty, with no role requirement, the permission guard redirects every
authenticated user — whatever permissions the user holds — to the forbidden
route: the empty array is truthy, so it passes the requirements-declared
check, yet `[].some(...)` is false, so no user can satisfy the membership
test.  (An unauthenticated visitor is caught by the preceding
authentication check of the same guard and sent to login instead.) -/
theorem c10_emptyPerms_forbidden (ns : NavState) (nowMs : Nat) (path : String)
    (hauth : AuthStore.isAuthenticated ns.store nowMs = true) :
    permissionGuardStep (emptyPermsRoute path) ns nowMs =
      (GuardDecision.redirect ⟨"/403", []⟩, ns) := by
  simp [permissionGuardStep, emptyPermsRoute, hauth]

/-- Witness for C10: the authenticated user holding the permissions `read`
and `write` is still redirected to the forbidden route. -/
theorem c10_emptyPerms_forbidden_witness :
    permissionGuardStep (emptyPermsRoute "/x") authedNs 1861000 =
      (GuardDecision.redirect ⟨"/403", []⟩, authedNs) :=
  c10_emptyPerms_forbidden authedNs 1861000 "/x" (by decide)

/-! ## C9: the logout watcher -/

theorem length_filterMap_le_length_filter {α β : Type} (f : α → Option β) (q : α → Bool)
    (l : List α) (h : ∀ x, (f x).isSome = true → q x = true) :
    (l.filterMap f).length ≤ (l.filter q).length := by
  induction l with
  | nil => simp
  | cons a tl ih =>
    rcases hf : f a with _ | b
    · cases hq : q a <;> simp [List.filterMap_cons, List.filter_cons, hf, hq] <;> omega
    · have hq := h a (by simp [hf])
      simp [List.filterMap_cons, List.filter_cons, hf, hq]
      exact ih

/-- C9: along any trace of observed `isAuthenticated` values paired with the
current route path, the logout watcher emits its login redirect exactly at
the strict true-to-false transitions whose path is not under `/auth` — one
redirect per such transition, nothing on false-to-true transitions, and
nothing when the value does not change (the watch callback only runs on
changes); consequently the number of redirects is at most the number of
true-to-false transitions. -/
theorem c9_logoutWatcher_spec (prev : Bool) (evs : List (Bool × String)) :
    runAuthWatch logoutWatchCallback prev evs =
      (watchTransitions prev evs).filterMap
        (fun tr =>
          if tr.1 = true ∧ tr.2.1 = false ∧ pathUnderAuth tr.2.2 = false
          then some AUTH_ROUTES.LOGIN else none) ∧
    (runAuthWatch logoutWatchCallback prev evs).length ≤
      ((watchTransitions prev evs).filter (fun tr => tr.1 && !tr.2.1)).length := by
  have heq : ∀ (l : List (Bool × String)) (pv : Bool),
      runAuthWatch logoutWatchCallback pv l =
        (watchTransitions pv l).filterMap
          (fun tr =>
            if tr.1 = true ∧ tr.2.1 = false ∧ pathUnderAuth tr.2.2 = false
            then some AUTH_ROUTES.LOGIN else none) := by
    intro l
    induction l with
    | nil => intro pv; rfl
    | cons hd tl ih =>
      intro pv
      obtain ⟨v, p⟩ := hd
      rcases pv <;> rcases v <;> cases hpa : pathUnderAuth p <;>
        simp [runAuthWatch, watchTransitions, logoutWatchCallback, List.filterMap_cons, hpa,
          ih]
  refine ⟨heq evs prev, ?_⟩
  rw [heq evs prev]
  apply length_filterMap_le_length_filter
  intro tr htr
  by_cases hc : tr.1 = true ∧ tr.2.1 = false ∧ pathUnderAuth tr.2.2 = false
  · simp [hc.1, hc.2.1]
  · simp [hc] at htr

end VueAuth
